import Mathlib

/-!
Verification of the UI-automation core of a Selenium-based QA framework.

The definitions below are a shallow embedding of the page-object code in
`ui_tests/pages/twitch_home_page.py`, `ui_tests/pages/base_page.py`,
`ui_tests/pages/twitch_streamer_page.py` and `ui_tests/conftest.py`.
Driver observations (element queries, visibility checks, ready-state reads,
current URL) are passed in as explicit function arguments; Python exceptions
are modelled with `Except Exc`.
-/

namespace QAF

/-- Exceptions that the Selenium layer can raise: a `TimeoutException`
from a bounded wait, or any other WebDriver error (carrying a message). -/
inductive Exc where
  | timeoutException : Exc
  | webDriverError : String → Exc
deriving DecidableEq

/-- Selenium locator strategies used by the page objects (`By.CSS_SELECTOR`,
`By.XPATH`, `By.TAG_NAME`). -/
inductive By where
  | cssSelector : By
  | xpath : By
  | tagName : By
deriving DecidableEq

/-- A locator: a (strategy, value) pair, as the `(By.X, "...")` tuples in the
page objects. -/
structure Locator where
  strategy : By
  value : String
deriving DecidableEq

/-- A DOM anchor/element as observed through the driver.
`href` is what `element.get_attribute("href")` returns (`none` models Python
`None`); `attrError = true` models an element whose attribute read raises a
WebDriver exception (e.g. a stale element); `interactable` records whether a
native interactable-click would succeed on it — the page objects under
verification never consult this field because they issue the script click
unconditionally. -/
structure WebElement where
  href : Option String
  attrError : Bool
  interactable : Bool
deriving DecidableEq

/-- Python's `needle in hay` substring test, on character lists:
`listStartsWith hay needle` is true when `needle` is a leading run of `hay`. -/
def listStartsWith : List Char → List Char → Bool
  | _, [] => true
  | [], _ :: _ => false
  | a :: as, b :: bs => a == b && listStartsWith as bs

/-- `listHasSub needle hay`: `needle` occurs as a contiguous run of `hay`. -/
def listHasSub (needle : List Char) : List Char → Bool
  | [] => needle.isEmpty
  | c :: rest => listStartsWith (c :: rest) needle || listHasSub needle rest

/-- Python's `sub in s` substring containment on strings. -/
def strHasSub (s sub : String) : Bool :=
  listHasSub sub.toList s.toList

/-- Python's `s.strip("/")`: remove every leading and trailing `/`. -/
def stripSlashes (s : String) : String :=
  String.mk (((s.toList.dropWhile (fun c => c == '/')).reverse.dropWhile
    (fun c => c == '/')).reverse)

/-- Drop as many leading characters of the second list as the first list has
(used to skip past a matched separator occurrence). -/
def dropLen : List Char → List Char → List Char
  | [], l => l
  | _ :: _, [] => []
  | _ :: ss, _ :: l => dropLen ss l

/-- Scan of `tailAfterLast`: `cur` is the suffix following the last separator
occurrence seen so far (initially the whole string, for the no-occurrence
case of Python `split`). -/
def tailAfterLastGo (sep : List Char) (cur : List Char) : List Char → List Char
  | [] => cur
  | c :: rest =>
    let cur2 := if listStartsWith (c :: rest) sep then dropLen sep (c :: rest) else cur
    tailAfterLastGo sep cur2 rest

/-- Python's `s.split(sep)[-1]` for a non-empty `sep`: the part of `s` after
the last occurrence of `sep`, or all of `s` when `sep` does not occur. -/
def tailAfterLast (sep hay : List Char) : List Char :=
  tailAfterLastGo sep hay hay

/-- Python's `s.split(sep)` for a one-character separator. -/
def splitChar (sep : Char) : List Char → List (List Char)
  | [] => [[]]
  | c :: rest =>
    let r := splitChar sep rest
    if c == sep then [] :: r
    else
      match r with
      | [] => [[c]]
      | s :: ss => (c :: s) :: ss

/-- The path extraction of `_is_channel_link`
(`href.split("twitch.tv/")[-1].strip("/")`). -/
def extractPath (href : String) : String :=
  stripSlashes (String.mk (tailAfterLast "twitch.tv/".toList href.toList))

/-- The path segmentation of `_is_channel_link` (`path.split("/")`). -/
def pathSegments (href : String) : List String :=
  (splitChar '/' (extractPath href).toList).map String.mk

/-- The fixed `exclude_patterns` list of `_is_channel_link`: known
non-content path roots. -/
def exclude_patterns : List String :=
  ["directory", "search", "prime", "turbo", "downloads", "jobs", "about",
   "p", "videos", "clips", "settings", "subscriptions", "inventory",
   "wallet", "drops", "friends"]

/-- The href test inside `_is_channel_link` (`twitch_home_page.py`,
lines 225-255), applied once the attribute read has produced a string.
Python's truthy test `if not href` is the `href == ""` disjunct; the final
`channel_name and ...` conjunction is truthiness of the name, i.e.
non-emptiness (Python would return the falsy `""` itself there; callers only
use the result as a boolean). -/
def isChannelHref (href : String) : Bool :=
  if href == "" || !strHasSub href "twitch.tv/" then false
  else
    let path := extractPath href
    if path == "" || listStartsWith path.toList "?".toList then false
    else
      let segs := pathSegments href
      let channel_name := segs.getD 0 ""
      (channel_name != "") &&
        !(exclude_patterns.contains channel_name) &&
        decide (channel_name.length > 1) &&
        (segs.length == 1)

/-- `TwitchHomePage._is_channel_link` (lines 222-258): reads the element's
`href` attribute inside a `try`; any exception (modelled by `attrError`)
is caught and yields `False`; a `None` href yields `False`; otherwise the
href test decides. -/
def is_channel_link (e : WebElement) : Bool :=
  if e.attrError then false
  else
    match e.href with
    | none => false
    | some h => isChannelHref h

example : isChannelHref "https://www.twitch.tv/ninja" = true := by decide
example : isChannelHref "https://www.twitch.tv/search" = false := by decide
example : isChannelHref "https://www.twitch.tv/shroud/videos" = false := by decide
example : isChannelHref "https://www.twitch.tv/ninja/" = true := by decide
example : isChannelHref "https://www.twitch.tv/" = false := by decide
example : isChannelHref "https://www.twitch.tv/?lang=en" = false := by decide
example : isChannelHref "https://example.com/ninja" = false := by decide
example : isChannelHref "" = false := by decide

/-- `TwitchHomePage.LIVE_CHANNELS`. -/
def LIVE_CHANNELS : Locator :=
  ⟨By.xpath,
   "//a[contains(@href, \x27/\x27) and not(contains(@href, \x27twitch.tv/p/\x27))]//h3"⟩

/-- `TwitchHomePage.STREAMER_CARDS`. -/
def STREAMER_CARDS : Locator :=
  ⟨By.xpath, "//a[contains(@class, \x27tw-link\x27) and contains(@href, \x27/\x27)]"⟩

/-- `TwitchHomePage.SEARCH_RESULT_LINKS`. -/
def SEARCH_RESULT_LINKS : Locator :=
  ⟨By.cssSelector, "a[class*=\x27tw-link\x27]"⟩

/-- `TwitchHomePage.SEARCH_ICON`. -/
def SEARCH_ICON : Locator :=
  ⟨By.cssSelector, "a[aria-label=\x27Search\x27]"⟩

/-- `TwitchHomePage.SEARCH_BUTTON`. -/
def SEARCH_BUTTON : Locator :=
  ⟨By.xpath, "//button[@aria-label=\x27Search\x27]"⟩

/-- `TwitchHomePage.SEARCH_INPUT`. -/
def SEARCH_INPUT : Locator :=
  ⟨By.cssSelector, "input[type=\x27search\x27]"⟩

/-- `TwitchHomePage.SEARCH_INPUT_ALT`. -/
def SEARCH_INPUT_ALT : Locator :=
  ⟨By.xpath, "//input[@placeholder=\x27Search\x27 or @aria-label=\x27Search Input\x27]"⟩

/-- The two inline locators of `get_live_streamer_cards`, lines 201-202. -/
def LINKS_WITH_H3 : Locator :=
  ⟨By.xpath, "//a[contains(@href, \x27/\x27) and .//h3]"⟩

/-- Inline `a[href^='/']` locator, line 202. -/
def ANY_ROOT_LINK : Locator :=
  ⟨By.cssSelector, "a[href^=\x27/\x27]"⟩

/-- The `selectors_to_try` list of `get_live_streamer_cards`, lines 197-203,
in its source order. -/
def selectors_to_try : List Locator :=
  [LIVE_CHANNELS, STREAMER_CARDS, SEARCH_RESULT_LINKS, LINKS_WITH_H3, ANY_ROOT_LINK]

/-- The selector loop of `get_live_streamer_cards` (lines 205-216).
The second argument carries the Python variable `cards`, rebound on every
iteration to the current selector's raw matches; after the loop the source
runs `return cards[:10] if cards else []` on its final value.
A selector with raw matches but an empty filtered set does not return:
the loop moves on to the next selector. -/
def streamer_cards_go (find : Locator → List WebElement) :
    List Locator → List WebElement → List WebElement
  | [], cards => if cards.isEmpty then [] else cards.take 10
  | sel :: rest, _ =>
    let cards := find sel
    if cards.isEmpty then streamer_cards_go find rest cards
    else
      let filtered := cards.filter is_channel_link
      if filtered.isEmpty then streamer_cards_go find rest cards
      else filtered

/-- `TwitchHomePage.get_live_streamer_cards` (lines 185-220). `find` is the
driver observation behind `find_elements`, which is total here because
`BasePage.find_elements` catches its own `TimeoutException` and returns `[]`;
exceptions inside `_is_channel_link` are caught there. -/
def get_live_streamer_cards (find : Locator → List WebElement) : List WebElement :=
  streamer_cards_go find selectors_to_try []

/-- The search-input locator chain of `enter_search_query` (lines 110-119):
`SEARCH_INPUT` if visible, else `SEARCH_INPUT_ALT` if visible, else the
raised "Search input field not found" exception. -/
def pick_search_input (visible : Locator → Bool) : Except Exc Locator :=
  if visible SEARCH_INPUT then Except.ok SEARCH_INPUT
  else if visible SEARCH_INPUT_ALT then Except.ok SEARCH_INPUT_ALT
  else Except.error (Exc.webDriverError "Search input field not found")

/-- How a click was issued: a native Selenium `element.click()` or a
JavaScript `arguments[0].click();` via `execute_script`. -/
inductive ClickMethod where
  | native : ClickMethod
  | script : ClickMethod
deriving DecidableEq

/-- `BasePage.is_element_present` (lines 152-166): a bare
`driver.find_element`, true when the locator has at least one match. -/
def is_element_present (page : Locator → List WebElement) (loc : Locator) : Bool :=
  !(page loc).isEmpty

/-- `BasePage.find_element` (lines 43-59): waits for presence, returning the
first match or raising `TimeoutException`. -/
def find_element (page : Locator → List WebElement) (loc : Locator) :
    Except Exc WebElement :=
  match (page loc).head? with
  | some e => Except.ok e
  | none => Except.error Exc.timeoutException

/-- `TwitchHomePage.click_search_icon` (lines 74-98): looks for `SEARCH_ICON`
then `SEARCH_BUTTON`; on the found element it runs
`driver.execute_script("arguments[0].click();", search_element)` — the
script click, with no prior native-click attempt; if neither locator is
present it raises "Search icon not present". The result records the click
method used on success. -/
def click_search_icon (page : Locator → List WebElement) :
    Except Exc (ClickMethod × WebElement) :=
  if is_element_present page SEARCH_ICON then
    match find_element page SEARCH_ICON with
    | Except.ok e => Except.ok (ClickMethod.script, e)
    | Except.error err => Except.error err
  else if is_element_present page SEARCH_BUTTON then
    match find_element page SEARCH_BUTTON with
    | Except.ok e => Except.ok (ClickMethod.script, e)
    | Except.error err => Except.error err
  else Except.error (Exc.webDriverError "Search icon not present")

/-- `TwitchHomePage.click_first_live_streamer` (lines 264-311): takes the
classified cards; with no cards it raises "No LIVE streamers found in search
results". Otherwise it first reads `first_card.get_attribute("href")` and
`first_card.text` for logging (lines 274-275) — reads that are not guarded
individually, so on an element whose attribute reads raise (`attrError`)
the exception reaches the outer handler and is re-raised (line 311) before
any click happens. Only then does it scroll the first card into view and
click it with `driver.execute_script("arguments[0].click();", cards[0])` —
the script click, never a native click — and wait up to its budget for the
URL to leave `/search` (`navLeavesSearch`), raising `TimeoutException`
otherwise (re-raised by the outer handler). -/
def click_first_live_streamer (find : Locator → List WebElement)
    (navLeavesSearch : Bool) : Except Exc (ClickMethod × WebElement) :=
  match get_live_streamer_cards find with
  | [] => Except.error (Exc.webDriverError "No LIVE streamers found in search results")
  | c :: _ =>
    if c.attrError then Except.error (Exc.webDriverError "attribute read failed")
    else if navLeavesSearch then Except.ok (ClickMethod.script, c)
    else Except.error Exc.timeoutException

/-- `WebDriverWait(driver, timeout).until(pred)`: polls `pred` at discrete
ticks (`fuel` polls remain, `t` is the current tick). A predicate exception
propagates immediately; a truthy value stops the wait; when the budget is
exhausted the wait raises `TimeoutException`. -/
def waitUntil (pred : Nat → Except Exc Bool) : Nat → Nat → Except Exc Unit
  | 0, _ => Except.error Exc.timeoutException
  | fuel + 1, t =>
    match pred t with
    | Except.error e => Except.error e
    | Except.ok true => Except.ok ()
    | Except.ok false => waitUntil pred fuel (t + 1)

/-- The ready-state predicate of `wait_for_page_load`:
`driver.execute_script("return document.readyState") == "complete"`, where
`rs` is the time-indexed ready state the driver reports (or a driver
exception). -/
def readyPred (rs : Nat → Except Exc String) : Nat → Except Exc Bool :=
  fun t =>
    match rs t with
    | Except.error e => Except.error e
    | Except.ok s => Except.ok (s == "complete")

/-- `BasePage.wait_for_page_load` (lines 243-255): runs the bounded
ready-state wait; `except TimeoutException:` catches the timeout, logs
"Page load timeout" and falls through, so the method returns normally;
any other exception is not caught and propagates. -/
def wait_for_page_load (rs : Nat → Except Exc String) (timeout : Nat) :
    Except Exc Unit :=
  match waitUntil (readyPred rs) timeout 0 with
  | Except.ok _ => Except.ok ()
  | Except.error Exc.timeoutException => Except.ok ()
  | Except.error e => Except.error e

/-- What one modal-dismissal pattern does on the current page:
its close button becomes clickable within the short wait (`clickable`),
the short wait expires (`absent`), or the click on it raises (`clickError`). -/
inductive PatternOutcome where
  | clickable : PatternOutcome
  | absent : PatternOutcome
  | clickError : PatternOutcome
deriving DecidableEq

/-- `TwitchStreamerPage.CLOSE_BUTTON`. -/
def CLOSE_BUTTON : Locator :=
  ⟨By.cssSelector, "button[aria-label=\x27Close\x27]"⟩

/-- `TwitchStreamerPage.MODAL_CLOSE`. -/
def MODAL_CLOSE : Locator :=
  ⟨By.xpath, "//button[contains(@aria-label, \x27Close\x27)]"⟩

/-- Inline close-or-dismiss locator of `handle_modals`, line 71. -/
def CLOSE_OR_DISMISS : Locator :=
  ⟨By.xpath,
   "//button[contains(@aria-label, \x27Close\x27) or contains(@aria-label, \x27Dismiss\x27)]"⟩

/-- Inline cookie-consent locator of `handle_modals`, line 72. -/
def CONSENT_ACCEPT : Locator :=
  ⟨By.cssSelector, "button[data-a-target=\x27consent-banner-accept\x27]"⟩

/-- The `close_selectors` list of `TwitchStreamerPage.handle_modals`
(lines 68-73), in source order. -/
def close_selectors : List Locator :=
  [CLOSE_BUTTON, MODAL_CLOSE, CLOSE_OR_DISMISS, CONSENT_ACCEPT]

/-- `BasePage.close_modal_if_present` (lines 311-330): waits up to `timeout`
for the close button to be clickable and clicks it, returning `True`;
`except TimeoutException:` turns an expired wait into `False`; an exception
raised by the click itself is not caught and propagates. -/
def close_modal_if_present (o : PatternOutcome) : Except Exc Bool :=
  match o with
  | PatternOutcome.clickable => Except.ok true
  | PatternOutcome.absent => Except.ok false
  | PatternOutcome.clickError => Except.error (Exc.webDriverError "click failed")

/-- The pattern loop of `TwitchStreamerPage.handle_modals` (lines 75-82):
for each selector, `close_modal_if_present` with a short timeout; `True`
breaks the loop; the surrounding `except Exception: continue` swallows any
exception and moves on. Returns the list of patterns attempted and whether
a dismissal occurred (the source logs and `break`s on success; the Boolean
makes that observable). -/
def handle_modals_go (out : Locator → PatternOutcome) :
    List Locator → List Locator × Bool
  | [] => ([], false)
  | sel :: rest =>
    match close_modal_if_present (out sel) with
    | Except.ok true => ([sel], true)
    | Except.ok false =>
      let r := handle_modals_go out rest
      (sel :: r.1, r.2)
    | Except.error _ =>
      let r := handle_modals_go out rest
      (sel :: r.1, r.2)

/-- `TwitchStreamerPage.handle_modals` (lines 51-85): first the
mature-content block (visible → click "Start Watching", exceptions caught),
then the close-selector loop; both blocks sit inside `try`/`except`, so the
method never raises — its Lean type is accordingly exception-free.
`matureVisible` is whether the mature-content button was visible; the result
records whether that warning was handled, plus the loop's outcome. -/
def handle_modals (matureVisible : Bool) (out : Locator → PatternOutcome) :
    Bool × List Locator × Bool :=
  (matureVisible, handle_modals_go out close_selectors)

/-- A DOM element as seen by the scroll script of
`BasePage.scroll_by_pixels`: which CSS selectors it matches, whether its
computed `overflowY` is `scroll`/`auto`, its scroll and client heights, its
current `scrollTop`, and its `tagName`. -/
structure DomElement where
  matchedSelectors : List String
  overflowScrollable : Bool
  scrollHeight : Nat
  clientHeight : Nat
  scrollTop : Int
  tagName : String
deriving DecidableEq

/-- The script's `isScrollable(element)`: overflowY is `scroll`/`auto` and
`scrollHeight > clientHeight`. -/
def isScrollable (e : DomElement) : Bool :=
  e.overflowScrollable && decide (e.scrollHeight > e.clientHeight)

/-- The outcome object the scroll script returns:
`{scrolled, selector, scrollTop}`. -/
structure ScrollResult where
  scrolled : Bool
  selector : String
  newScrollTop : Int
deriving DecidableEq

/-- The script's `selectors` array (line 206 of `base_page.py`). -/
def scroll_selectors : List String :=
  ["main[role=\"main\"]", "div[data-a-page-loaded=\"true\"]", "#root", "body", "html"]

/-- First phase of the scroll script: for each selector in order, the
elements matching it in document order; the first scrollable one wins. -/
def firstScrollTarget (dom : List DomElement) :
    List String → Option (String × DomElement)
  | [] => none
  | sel :: rest =>
    match (dom.filter (fun e => e.matchedSelectors.contains sel)).find? isScrollable with
    | some e => some (sel, e)
    | none => firstScrollTarget dom rest

/-- Second phase of the scroll script: scan all elements for one that is
scrollable with `scrollHeight > clientHeight + 100`. -/
def bigScrollTarget (dom : List DomElement) : Option DomElement :=
  dom.find? (fun e => isScrollable e && decide (e.scrollHeight > e.clientHeight + 100))

/-- The JavaScript of `BasePage.scroll_by_pixels` (lines 193-231), evaluated
over the DOM: scroll the first scrollable element of the selector scan, else
the first large-margin scrollable element of the all-elements scan, else
`window.scrollBy(0, pixels)`; every branch returns `scrolled: true`.
`windowY` is `window.pageYOffset` before the call. -/
def scroll_script (dom : List DomElement) (windowY pixels : Int) : ScrollResult :=
  match firstScrollTarget dom scroll_selectors with
  | some (sel, e) => ⟨true, sel, e.scrollTop + pixels⟩
  | none =>
    match bigScrollTarget dom with
    | some e => ⟨true, e.tagName, e.scrollTop + pixels⟩
    | none => ⟨true, "window", windowY + pixels⟩

/-- `BasePage.scroll_by_pixels` (lines 183-241): executes the scroll script
and logs the result. The `except`/`raise` branch of the Python wrapper fires
only when the driver itself fails to execute the script — the script's own
evaluation over any DOM is total, as `scroll_script`'s type shows — so over
every page state the operation returns the script's result. -/
def scroll_by_pixels (dom : List DomElement) (windowY pixels : Int) : ScrollResult :=
  scroll_script dom windowY pixels

/-- `TwitchStreamerPage.is_video_player_visible` (lines 87-105). `vis` is
the outcome of `is_element_visible(VIDEO_PLAYER, timeout=10)` (which maps
its own `TimeoutException` to `ok false` and lets other exceptions through);
`vids` is the outcome of `find_elements((By.TAG_NAME, "video"))` (which maps
a timeout to `ok []`). The outer `except` returns `True`:
"Assume success if check fails". -/
def is_video_player_visible (vis : Except Exc Bool)
    (vids : Except Exc (List WebElement)) : Bool :=
  match vis with
  | Except.error _ => true
  | Except.ok true => true
  | Except.ok false =>
    match vids with
    | Except.error _ => true
    | Except.ok l => decide (0 < l.length)

/-- `TwitchStreamerPage.is_page_loaded_successfully` (lines 162-187). `url`
is the outcome of reading `driver.current_url`; the check is
`"twitch.tv" in current_url and len(current_url.split("/")) > 3`; the
`except` branch returns `True`: "Assume success if verification fails". -/
def is_page_loaded_successfully (url : Except Exc String) : Bool :=
  match url with
  | Except.error _ => true
  | Except.ok u =>
    strHasSub u "twitch.tv" &&
      decide ((splitChar '/' u.toList).length > 3)

/-- A live browser session (the value of `webdriver.Chrome/Firefox/Edge`). -/
structure Session where
  id : Nat
deriving DecidableEq

/-- The `driver` fixture of `ui_tests/conftest.py` (lines 42-197):
`driver = None`; inside `try`, the session is acquired (`acquire`), the
post-acquisition configuration runs (`configure`: implicit wait, page-load
timeout, maximize — any of which may raise), then `yield driver` runs the
test body (`test`; an exception in the body re-enters at the yield and is
re-raised); `finally: if driver: driver.quit()`. The first component is the
session `quit` was called on (`none` when `driver` was still `None`); the
second is the propagated outcome. -/
def driver_fixture (acquire : Except Exc Session)
    (configure : Session → Except Exc Unit)
    (test : Session → Except Exc Unit) : Option Session × Except Exc Unit :=
  match acquire with
  | Except.error e => (none, Except.error e)
  | Except.ok s =>
    match configure s with
    | Except.error e => (some s, Except.error e)
    | Except.ok _ => (some s, test s)

/-! Concrete fixture elements and page states used by witnesses and
counterexamples. -/

/-- A qualifying channel anchor: `/ninja`. -/
def elemNinja : WebElement := ⟨some "https://www.twitch.tv/ninja", false, true⟩

/-- A chrome anchor whose single path segment `search` is in the exclusion
list. -/
def elemSearch : WebElement := ⟨some "https://www.twitch.tv/search", false, true⟩

/-- A two-segment anchor: `/shroud/videos`. -/
def elemShroudVideos : WebElement :=
  ⟨some "https://www.twitch.tv/shroud/videos", false, true⟩

/-- A fully interactable, non-occluded element with no href (e.g. the search
icon). -/
def elemIcon : WebElement := ⟨none, false, true⟩

/-- A page on which every selector matches exactly the one excluded chrome
anchor. -/
def pageOnlyExcluded : Locator → List WebElement := fun _ => [elemSearch]

/-- A page on which the first selector of the chain matches the excluded
anchor and the second matches the qualifying one. -/
def pageSplitChain : Locator → List WebElement := fun sel =>
  if sel = LIVE_CHANNELS then [elemSearch]
  else if sel = STREAMER_CARDS then [elemNinja] else []

/-- A page on which every selector matches the three fixture anchors. -/
def pageFixtureAnchors : Locator → List WebElement :=
  fun _ => [elemNinja, elemSearch, elemShroudVideos]

/-- A page whose search icon is present and interactable. -/
def pageWithIcon : Locator → List WebElement := fun sel =>
  if sel = SEARCH_ICON then [elemIcon] else []

/-- A ready-state history that never reaches `complete`. -/
def rsNeverComplete : Nat → Except Exc String := fun _ => Except.ok "loading"

/-! Theorems. -/

/-- The href-level classification rule, conditional on the guards that
`_is_channel_link` applies before the segment checks. -/
lemma isChannelHref_iff (h : String)
    (hTw : strHasSub h "twitch.tv/" = true)
    (hQ : listStartsWith (extractPath h).toList "?".toList = false) :
    isChannelHref h = true ↔
      ((pathSegments h).getD 0 "" ≠ "" ∧
       ((pathSegments h).getD 0 "").length > 1 ∧
       exclude_patterns.contains ((pathSegments h).getD 0 "") = false ∧
       (pathSegments h).length = 1) := by
  have hne : h ≠ "" := by
    intro hh
    subst hh
    exact absurd hTw (by decide)
  rw [isChannelHref]
  simp only [hTw, hne, beq_iff_eq, if_false, Bool.not_true, Bool.or_false, if_neg,
    Bool.false_or]
  by_cases hp : extractPath h = ""
  · have hsegs : pathSegments h = [""] := by
      rw [pathSegments, hp]
      decide
    simp [hp, hsegs]
  · have hpb : (extractPath h == "") = false := by
      simp [hp]
    simp only [hpb, hQ, Bool.or_false, Bool.false_eq_true, if_false,
      Bool.and_eq_true, bne_iff_ne, ne_eq, Bool.not_eq_true',
      decide_eq_true_eq, beq_iff_eq]
    tauto

/-- C1: under the guards of the classifier (attribute read succeeds, href is
a string mentioning `twitch.tv/`, extracted path not query-only),
`_is_channel_link` accepts exactly when the first path segment is non-empty,
longer than one character, outside the exclusion list, and the path has
exactly one segment; in particular any path of two or more segments is
rejected. -/
theorem c1_channel_link_iff (e : WebElement) (h : String)
    (hAttr : e.attrError = false) (hHref : e.href = some h)
    (hTw : strHasSub h "twitch.tv/" = true)
    (hQ : listStartsWith (extractPath h).toList "?".toList = false) :
    (is_channel_link e = true ↔
      ((pathSegments h).getD 0 "" ≠ "" ∧
       ((pathSegments h).getD 0 "").length > 1 ∧
       exclude_patterns.contains ((pathSegments h).getD 0 "") = false ∧
       (pathSegments h).length = 1)) ∧
    (2 ≤ (pathSegments h).length → is_channel_link e = false) := by
  have hicl : is_channel_link e = isChannelHref h := by
    simp [is_channel_link, hAttr, hHref]
  constructor
  · rw [hicl]
    exact isChannelHref_iff h hTw hQ
  · intro hlen
    rw [hicl]
    rcases hx : isChannelHref h with _ | _
    · rfl
    · have := (isChannelHref_iff h hTw hQ).mp hx
      omega

/-- Witness for C1: the classifier accepts the `/ninja` fixture anchor. -/
theorem c1_channel_link_iff_witness : is_channel_link elemNinja = true :=
  (c1_channel_link_iff elemNinja "https://www.twitch.tv/ninja" rfl rfl
    (by decide) (by decide)).1.mpr (by decide)

/-- An element whose attribute reads raise (e.g. stale). -/
def elemStale : WebElement := ⟨some "https://www.twitch.tv/ninja", true, true⟩

/-- C10: `_is_channel_link` is total at its interface — a raising attribute
read, a `None` href, an href without `twitch.tv/`, an empty extracted path,
or a query-only extracted path all yield `False` rather than an exception
propagating to the caller. -/
theorem c10_classifier_total (e : WebElement) :
    (e.attrError = true → is_channel_link e = false) ∧
    (e.href = none → is_channel_link e = false) ∧
    (∀ h, e.href = some h → strHasSub h "twitch.tv/" = false →
      is_channel_link e = false) ∧
    (∀ h, e.href = some h → extractPath h = "" → is_channel_link e = false) ∧
    (∀ h, e.href = some h →
      listStartsWith (extractPath h).toList "?".toList = true →
      is_channel_link e = false) := by
  refine ⟨?_, ?_, ?_, ?_, ?_⟩
  · intro ha
    simp [is_channel_link, ha]
  · intro hn
    cases hA : e.attrError <;> simp [is_channel_link, hA, hn]
  · intro h hh hsub
    cases hA : e.attrError <;> simp [is_channel_link, hA, hh, isChannelHref, hsub]
  · intro h hh hp
    cases hA : e.attrError
    · simp only [is_channel_link, hA, Bool.false_eq_true, if_false, hh]
      rw [isChannelHref]
      split
      · rfl
      · simp [hp]
    · simp [is_channel_link, hA]
  · intro h hh hq
    cases hA : e.attrError
    · simp only [is_channel_link, hA, Bool.false_eq_true, if_false, hh]
      rw [isChannelHref]
      split
      · rfl
      · simp [show listStartsWith (extractPath h).data ['?'] = true from hq]
    · simp [is_channel_link, hA]

/-- Witness for C10: a stale element and a hrefless element are both
rejected without an error. -/
theorem c10_classifier_total_witness :
    is_channel_link elemStale = false ∧ is_channel_link elemIcon = false :=
  ⟨(c10_classifier_total elemStale).1 rfl,
   (c10_classifier_total elemIcon).2.1 rfl⟩

/-- A page with no matching elements at all. -/
def pageEmpty : Locator → List WebElement := fun _ => []

/-- If some selector of the chain has a qualifying match, the selector loop
returns a list of qualifying links only, whatever the carried `cards`. -/
lemma streamer_go_qual (find : Locator → List WebElement) :
    ∀ (sels : List Locator) (acc : List WebElement),
      (∃ sel ∈ sels, ∃ e ∈ find sel, is_channel_link e = true) →
      ∀ e ∈ streamer_cards_go find sels acc, is_channel_link e = true := by
  intro sels
  induction sels with
  | nil =>
    intro acc h
    simp at h
  | cons sel rest ih =>
    intro acc hex e he
    simp only [streamer_cards_go] at he
    by_cases hc : (find sel).isEmpty
    · rw [if_pos hc] at he
      refine ih (find sel) ?_ e he
      obtain ⟨s, hs, e0, he0, hq⟩ := hex
      rcases List.mem_cons.mp hs with h1 | h2
      · subst h1
        rw [List.isEmpty_iff] at hc
        rw [hc] at he0
        exact absurd he0 (List.not_mem_nil e0)
      · exact ⟨s, h2, e0, he0, hq⟩
    · rw [if_neg hc] at he
      by_cases hf : ((find sel).filter is_channel_link).isEmpty
      · rw [if_pos hf] at he
        refine ih (find sel) ?_ e he
        obtain ⟨s, hs, e0, he0, hq⟩ := hex
        rcases List.mem_cons.mp hs with h1 | h2
        · subst h1
          exfalso
          rw [List.isEmpty_iff] at hf
          have hmem : e0 ∈ (find s).filter is_channel_link :=
            List.mem_filter.mpr ⟨he0, hq⟩
          rw [hf] at hmem
          exact absurd hmem (List.not_mem_nil e0)
        · exact ⟨s, h2, e0, he0, hq⟩
      · rw [if_neg hf] at he
        exact (List.mem_filter.mp he).2

/-- If no selector of the chain matches anything, the selector loop returns
the empty list. -/
lemma streamer_go_all_empty (find : Locator → List WebElement) :
    ∀ sels : List Locator, (∀ sel ∈ sels, find sel = []) →
      streamer_cards_go find sels [] = [] := by
  intro sels
  induction sels with
  | nil =>
    intro _
    rfl
  | cons sel rest ih =>
    intro hall
    have h0 : find sel = [] := hall sel (List.mem_cons_self sel rest)
    simp only [streamer_cards_go, h0, List.isEmpty_nil, if_true]
    exact ih fun s hs => hall s (List.mem_cons_of_mem sel hs)

/-- Counterexample to C2: on a page where every selector matches exactly the
chrome anchor `/search` — whose single path segment is in the exclusion
list — `get_live_streamer_cards` falls through to
`return cards[:10] if cards else []` and yields that excluded link. -/
theorem c2_counterexample :
    get_live_streamer_cards pageOnlyExcluded = [elemSearch] ∧
    is_channel_link elemSearch = false ∧
    exclude_patterns.contains "search" = true := by
  refine ⟨by decide, by decide, by decide⟩

/-- C2 (amended): when some selector's matches include at least one
qualifying link, the result contains qualifying links only; when no selector
matches anything (or an exception occurs), the result is the empty list and
no error is signalled; but when candidates exist and none qualify, the
operation instead returns the first up-to-ten raw matches of the last
selector, unfiltered. -/
theorem c2_amended (find : Locator → List WebElement) :
    ((∃ sel ∈ selectors_to_try, ∃ e ∈ find sel, is_channel_link e = true) →
      ∀ e ∈ get_live_streamer_cards find, is_channel_link e = true) ∧
    ((∀ sel ∈ selectors_to_try, find sel = []) →
      get_live_streamer_cards find = []) := by
  constructor
  · intro hex
    exact streamer_go_qual find selectors_to_try [] hex
  · intro hall
    exact streamer_go_all_empty find selectors_to_try hall

/-- Witness for C2 (amended): on the three-anchor fixture page the result is
all-qualifying, and on an empty page the result is `[]`. -/
theorem c2_amended_witness :
    (∀ e ∈ get_live_streamer_cards pageFixtureAnchors, is_channel_link e = true) ∧
    get_live_streamer_cards pageEmpty = [] :=
  ⟨(c2_amended pageFixtureAnchors).1
      ⟨LIVE_CHANNELS, by decide, elemNinja, by decide, by decide⟩,
   (c2_amended pageEmpty).2 fun _ _ => rfl⟩

/-- Counterexample to C3: on `pageSplitChain` the first selector of the
chain (`LIVE_CHANNELS`) yields a non-empty match set, yet resolution does
not return that match set — it consults the second selector
(`STREAMER_CARDS`) and returns its filtered matches, because the first
selector's matches contained no qualifying channel link. -/
theorem c3_counterexample :
    pageSplitChain LIVE_CHANNELS = [elemSearch] ∧
    pageSplitChain LIVE_CHANNELS ≠ [] ∧
    get_live_streamer_cards pageSplitChain = [elemNinja] ∧
    get_live_streamer_cards pageSplitChain ≠ pageSplitChain LIVE_CHANNELS := by
  refine ⟨by decide, by decide, by decide, by decide⟩

/-- C3 (amended): the selector loop of `get_live_streamer_cards` returns
the filtered match set of the first strategy whose raw matches contain at
least one qualifying channel link, and a strategy with a non-empty raw
match set but no qualifying link passes control to the remaining
strategies; the two-step input chain of `enter_search_query` does follow
pure first-non-empty-wins order: when the first locator is visible it is
chosen and the alternative is never consulted. -/
theorem c3_amended :
    (∀ (find : Locator → List WebElement) (sel : Locator)
        (rest : List Locator) (acc : List WebElement),
      ((find sel).filter is_channel_link ≠ [] →
        streamer_cards_go find (sel :: rest) acc =
          (find sel).filter is_channel_link) ∧
      (find sel ≠ [] → (find sel).filter is_channel_link = [] →
        streamer_cards_go find (sel :: rest) acc =
          streamer_cards_go find rest (find sel))) ∧
    (∀ visible : Locator → Bool, visible SEARCH_INPUT = true →
      pick_search_input visible = Except.ok SEARCH_INPUT) := by
  constructor
  · intro find sel rest acc
    constructor
    · intro hf
      have hc : ¬(find sel).isEmpty = true := by
        rw [List.isEmpty_iff]
        intro hcc
        rw [hcc] at hf
        simp at hf
      have hfe : ¬((find sel).filter is_channel_link).isEmpty = true := by
        rw [List.isEmpty_iff]
        exact hf
      simp only [streamer_cards_go]
      rw [if_neg hc, if_neg hfe]
    · intro hne hf
      have hc : ¬(find sel).isEmpty = true := by
        rw [List.isEmpty_iff]
        exact hne
      have hfe : ((find sel).filter is_channel_link).isEmpty = true := by
        rw [List.isEmpty_iff]
        exact hf
      simp only [streamer_cards_go]
      rw [if_neg hc, if_pos hfe]
  · intro visible hv
    simp [pick_search_input, hv]

/-- Witness for C3 (amended): concrete instances of both conjuncts. -/
theorem c3_amended_witness :
    streamer_cards_go pageSplitChain [STREAMER_CARDS] [] =
      (pageSplitChain STREAMER_CARDS).filter is_channel_link ∧
    pick_search_input (fun _ => true) = Except.ok SEARCH_INPUT :=
  ⟨(c3_amended.1 pageSplitChain STREAMER_CARDS [] []).1 (by decide),
   c3_amended.2 (fun _ => true) rfl⟩

/-- A ready-state history whose read raises a non-timeout driver error. -/
def rsBoom : Nat → Except Exc String :=
  fun _ => Except.error (Exc.webDriverError "boom")

/-- Counterexample to C4: with a document that never reaches
`readyState == "complete"`, the inner bounded wait of `wait_for_page_load`
does time out, yet the operation returns normally to its caller instead of
signalling the timeout — the `except TimeoutException:` block only logs a
warning. -/
theorem c4_counterexample :
    waitUntil (readyPred rsNeverComplete) 5 0 = Except.error Exc.timeoutException ∧
    wait_for_page_load rsNeverComplete 5 = Except.ok () :=
  ⟨rfl, rfl⟩

/-- C4 (amended): the underlying bounded wait terminates with a
`TimeoutException` when its budget is exhausted and propagates a non-timeout
predicate exception immediately; but `wait_for_page_load` catches the
timeout and returns normally (logging only a warning), so only non-timeout
exceptions reach its caller. -/
theorem c4_amended :
    (∀ (rs : Nat → Except Exc String) (timeout : Nat),
      waitUntil (readyPred rs) timeout 0 = Except.error Exc.timeoutException →
      wait_for_page_load rs timeout = Except.ok ()) ∧
    (∀ (rs : Nat → Except Exc String) (timeout : Nat) (msg : String),
      waitUntil (readyPred rs) timeout 0 =
          Except.error (Exc.webDriverError msg) →
      wait_for_page_load rs timeout = Except.error (Exc.webDriverError msg)) ∧
    (∀ (pred : Nat → Except Exc Bool) (t : Nat),
      waitUntil pred 0 t = Except.error Exc.timeoutException) ∧
    (∀ (pred : Nat → Except Exc Bool) (fuel t : Nat) (msg : String),
      pred t = Except.error (Exc.webDriverError msg) →
      waitUntil pred (fuel + 1) t = Except.error (Exc.webDriverError msg)) := by
  refine ⟨?_, ?_, ?_, ?_⟩
  · intro rs timeout hw
    simp only [wait_for_page_load, hw]
  · intro rs timeout msg hw
    simp only [wait_for_page_load, hw]
  · intro pred t
    rfl
  · intro pred fuel t msg hp
    simp only [waitUntil, hp]

/-- Witness for C4 (amended): all four conjuncts at concrete inputs. -/
theorem c4_amended_witness :
    wait_for_page_load rsNeverComplete 3 = Except.ok () ∧
    wait_for_page_load rsBoom 5 = Except.error (Exc.webDriverError "boom") ∧
    waitUntil (readyPred rsNeverComplete) 0 7 = Except.error Exc.timeoutException ∧
    waitUntil (readyPred rsBoom) 3 0 = Except.error (Exc.webDriverError "boom") :=
  ⟨c4_amended.1 rsNeverComplete 3 rfl,
   c4_amended.2.1 rsBoom 5 "boom" rfl,
   c4_amended.2.2.1 (readyPred rsNeverComplete) 7,
   c4_amended.2.2.2 (readyPred rsBoom) 2 0 "boom" rfl⟩

/-- Counterexample to C5: the search icon is present, interactable and not
occluded, yet `click_search_icon` clicks it via the script path — there is
no native interactable-click attempt at all, so the script click is not a
fallback reserved for interception or a missed wait budget. -/
theorem c5_counterexample :
    pageWithIcon SEARCH_ICON = [elemIcon] ∧
    elemIcon.interactable = true ∧
    click_search_icon pageWithIcon = Except.ok (ClickMethod.script, elemIcon) :=
  ⟨by decide, rfl, rfl⟩

/-- C5 (amended): both click operations issue the script-driven click on
the resolved element unconditionally — one script click, no prior native
attempt. `click_search_icon` succeeds whenever either of its locators is
present; `click_first_live_streamer` succeeds on the resolved first card
exactly when that card's pre-click attribute reads (lines 274-275) do not
raise and the post-click URL wait confirms navigation — when those reads do
raise, the exception is re-raised to the caller before any click. -/
theorem c5_amended :
    (∀ page : Locator → List WebElement,
      page SEARCH_ICON ≠ [] ∨ page SEARCH_BUTTON ≠ [] →
      ∃ e, click_search_icon page = Except.ok (ClickMethod.script, e)) ∧
    (∀ (find : Locator → List WebElement) (c : WebElement)
        (rest : List WebElement),
      get_live_streamer_cards find = c :: rest →
      (c.attrError = false →
        click_first_live_streamer find true = Except.ok (ClickMethod.script, c)) ∧
      (c.attrError = true →
        click_first_live_streamer find true =
          Except.error (Exc.webDriverError "attribute read failed"))) := by
  constructor
  · intro page hp
    rcases hi : page SEARCH_ICON with _ | ⟨a, l⟩
    · have hb : page SEARCH_BUTTON ≠ [] := by
        rcases hp with h | h
        · exact absurd hi h
        · exact h
      rcases hbb : page SEARCH_BUTTON with _ | ⟨b, l2⟩
      · exact absurd hbb hb
      · exact ⟨b, by simp [click_search_icon, is_element_present, find_element, hi, hbb]⟩
    · exact ⟨a, by simp [click_search_icon, is_element_present, find_element, hi]⟩
  · intro find c rest hc
    constructor
    · intro ha
      simp [click_first_live_streamer, hc, ha]
    · intro ha
      simp [click_first_live_streamer, hc, ha]

/-- A stale-first-card page: every selector matches only the element whose
attribute reads raise, so the unfiltered `cards[:10]` fallback puts it at
`cards[0]`. -/
def pageStaleCard : Locator → List WebElement := fun _ => [elemStale]

/-- Witness for C5 (amended): the icon click succeeds via the script path;
the streamer click succeeds on the clean fixture page and re-raises on the
stale-first-card page. -/
theorem c5_amended_witness :
    (∃ e, click_search_icon pageWithIcon = Except.ok (ClickMethod.script, e)) ∧
    click_first_live_streamer pageFixtureAnchors true =
      Except.ok (ClickMethod.script, elemNinja) ∧
    click_first_live_streamer pageStaleCard true =
      Except.error (Exc.webDriverError "attribute read failed") :=
  ⟨c5_amended.1 pageWithIcon (Or.inl (by decide)),
   (c5_amended.2 pageFixtureAnchors elemNinja [] (by decide)).1 rfl,
   (c5_amended.2 pageStaleCard elemStale [] (by decide)).2 rfl⟩

/-- C6: the modal-dismissal chain stops at the first pattern whose dismissal
succeeds, having attempted no later pattern and reporting a dismissal; when
every pattern's short wait expires it reports no dismissal after attempting
all of them; and an exception inside a pattern's dismissal is swallowed (the
loop moves on and still returns normally), so nothing is raised to the
caller — `handle_modals`' exception-free type reflects the enclosing
`try`/`except` blocks. -/
theorem c6_modal_chain :
    (∀ (out : Locator → PatternOutcome) (sel : Locator) (rest : List Locator),
      out sel = PatternOutcome.clickable →
      handle_modals_go out (sel :: rest) = ([sel], true)) ∧
    (∀ (out : Locator → PatternOutcome) (pats : List Locator),
      (∀ sel ∈ pats, out sel = PatternOutcome.absent) →
      handle_modals_go out pats = (pats, false)) ∧
    (∀ (out : Locator → PatternOutcome) (pats : List Locator),
      (∀ sel ∈ pats, out sel = PatternOutcome.clickError) →
      handle_modals_go out pats = (pats, false)) := by
  refine ⟨?_, ?_, ?_⟩
  · intro out sel rest h
    simp [handle_modals_go, h, close_modal_if_present]
  · intro out pats
    induction pats with
    | nil =>
      intro _
      rfl
    | cons sel rest ih =>
      intro hall
      have h0 : out sel = PatternOutcome.absent :=
        hall sel (List.mem_cons_self sel rest)
      have hr := ih fun s hs => hall s (List.mem_cons_of_mem sel hs)
      simp [handle_modals_go, h0, close_modal_if_present, hr]
  · intro out pats
    induction pats with
    | nil =>
      intro _
      rfl
    | cons sel rest ih =>
      intro hall
      have h0 : out sel = PatternOutcome.clickError :=
        hall sel (List.mem_cons_self sel rest)
      have hr := ih fun s hs => hall s (List.mem_cons_of_mem sel hs)
      simp [handle_modals_go, h0, close_modal_if_present, hr]

/-- Witness for C6: a first-pattern success attempts nothing further; an
all-absent page and an all-raising page both finish the whole chain with no
dismissal and no exception. -/
theorem c6_modal_chain_witness :
    handle_modals_go (fun _ => PatternOutcome.clickable)
      (CLOSE_BUTTON :: [ MODAL_CLOSE ]) = ([CLOSE_BUTTON], true) ∧
    handle_modals_go (fun _ => PatternOutcome.absent) close_selectors =
      (close_selectors, false) ∧
    handle_modals_go (fun _ => PatternOutcome.clickError) close_selectors =
      (close_selectors, false) :=
  ⟨c6_modal_chain.1 (fun _ => PatternOutcome.clickable) CLOSE_BUTTON
      ([ MODAL_CLOSE ]) rfl,
   c6_modal_chain.2.1 (fun _ => PatternOutcome.absent) close_selectors
      (fun _ _ => rfl),
   c6_modal_chain.2.2 (fun _ => PatternOutcome.clickError) close_selectors
      (fun _ _ => rfl)⟩

/-- When no element of the DOM is scrollable, the selector scan of the
scroll script finds nothing. -/
lemma firstScrollTarget_none (dom : List DomElement)
    (h : ∀ e ∈ dom, isScrollable e = false) :
    ∀ sels : List String, firstScrollTarget dom sels = none := by
  intro sels
  induction sels with
  | nil => rfl
  | cons sel rest ih =>
    rw [firstScrollTarget]
    have hfind :
        (dom.filter fun e => e.matchedSelectors.contains sel).find? isScrollable
          = none := by
      rw [List.find?_eq_none]
      intro x hx
      simp [h x (List.mem_filter.mp hx).1]
    rw [hfind, ih]

/-- When no element of the DOM is scrollable, the all-elements scan of the
scroll script finds nothing either. -/
lemma bigScrollTarget_none (dom : List DomElement)
    (h : ∀ e ∈ dom, isScrollable e = false) :
    bigScrollTarget dom = none := by
  rw [bigScrollTarget, List.find?_eq_none]
  intro x hx
  simp [h x hx]

/-- C7: the scroll operation is total over every page state and pixel delta
— the script always reports `scrolled: true` and never raises; when the
two-phase probe finds a scrollable container, the first one found is the one
scrolled by the requested delta; and when no scrollable container exists at
all it falls back to scrolling the whole viewport (in the worst case a no-op
viewport scroll). -/
theorem c7_scroll_total (dom : List DomElement) (windowY pixels : Int) :
    (scroll_by_pixels dom windowY pixels).scrolled = true ∧
    (∀ sel e, firstScrollTarget dom scroll_selectors = some (sel, e) →
      scroll_by_pixels dom windowY pixels = ⟨true, sel, e.scrollTop + pixels⟩) ∧
    ((∀ e ∈ dom, isScrollable e = false) →
      scroll_by_pixels dom windowY pixels = ⟨true, "window", windowY + pixels⟩) := by
  refine ⟨?_, ?_, ?_⟩
  · rw [scroll_by_pixels, scroll_script]
    rcases hf : firstScrollTarget dom scroll_selectors with _ | ⟨sel, e⟩
    · rcases hb : bigScrollTarget dom with _ | e <;> rfl
    · rfl
  · intro sel e hf
    rw [scroll_by_pixels, scroll_script, hf]
  · intro h
    rw [scroll_by_pixels, scroll_script,
      firstScrollTarget_none dom h scroll_selectors, bigScrollTarget_none dom h]

/-- A single-element DOM with nothing scrollable. -/
def domNoScroll : List DomElement := [⟨["body"], false, 500, 300, 0, "BODY"⟩]

/-- Witness for C7: on a DOM with no scrollable container the scroll lands
on the viewport and still reports success. -/
theorem c7_scroll_total_witness :
    scroll_by_pixels domNoScroll 0 500 = ⟨true, "window", 0 + 500⟩ :=
  (c7_scroll_total domNoScroll 0 500).2.2 (by decide)

/-- Counterexample to C8: when its own evaluation raises a (non-timeout)
exception, each destination-verification predicate reports success — the
source comments read "Assume success if check fails" and "Assume success if
verification fails". -/
theorem c8_counterexample :
    is_video_player_visible (Except.error (Exc.webDriverError "boom"))
      (Except.ok []) = true ∧
    is_page_loaded_successfully (Except.error (Exc.webDriverError "boom")) = true :=
  ⟨rfl, rfl⟩

/-- C8 (amended): the two destination-verification predicates swallow any
exception raised by their own evaluation and report success (`True`) in that
case; only a cleanly evaluated negative check reports failure. -/
theorem c8_amended (err : Exc) (vids : Except Exc (List WebElement)) :
    is_video_player_visible (Except.error err) vids = true ∧
    is_page_loaded_successfully (Except.error err) = true :=
  ⟨rfl, rfl⟩

/-- C9: once the driver fixture has acquired a session, `driver.quit()` is
called on that session on every exit path — configuration failure, test
failure or normal completion — because the release sits in the `finally`
block of the fixture. -/
theorem c9_fixture_releases (acquire : Except Exc Session)
    (configure test : Session → Except Exc Unit) (s : Session)
    (h : acquire = Except.ok s) :
    (driver_fixture acquire configure test).1 = some s := by
  subst h
  rcases hc : configure s with e | u <;> simp [driver_fixture, hc]

/-- A concrete session value. -/
def sessionA : Session := ⟨0⟩

/-- Witness for C9: even when post-acquisition setup raises, the acquired
session is the one released. -/
theorem c9_fixture_releases_witness :
    (driver_fixture (Except.ok sessionA)
      (fun _ => Except.error (Exc.webDriverError "setup failed"))
      (fun _ => Except.ok ())).1 = some sessionA :=
  c9_fixture_releases (Except.ok sessionA)
    (fun _ => Except.error (Exc.webDriverError "setup failed"))
    (fun _ => Except.ok ()) sessionA rfl

end QAF
